import Mathlib

/-!
Verification of the SLURM cluster executor in
`snakemake/executors/slurm/slurm_submit.py` (335 lines).

Each Python construct of the executor is translated into an executable
Lean definition.  Strings are modelled as Lean `String`; where the code
scans characters we work on `String.data` (a `List Char`), which is the
same data.  Process invocations (`subprocess.check_output`, `sacct`,
`scontrol`, `scancel`, `sbatch`) are modelled by passing in their
observable results as explicit inputs, since the executor only consumes
their exit status, captured output and timeouts.  Resource values are
rendered to strings, as Python `str.format` does; Python truthiness of a
`dict.get` result is modelled for those string values (`None` and the
empty string are falsy, which covers every value the claims exercise).
-/

namespace SlurmSubmit

/-- String append exposed at the character-list level. -/
theorem data_append (s t : String) : (s ++ t).data = s.data ++ t.data := by
  cases s
  cases t
  rfl

/-- Python truthiness of the result of `dict.get(key)` for string-valued
resources: `None` (absent key) and the empty string are falsy. -/
def truthy : Option String → Bool
  | none => false
  | some s => !(s == "")

/-- Resource mapping of a job: the read-only view `job.resources` that
`slurm_submit.py` consumes.  Keys map to string-rendered values. -/
structure Resources where
  entries : List (String × String)
deriving DecidableEq

/-- Lookup in the resource mapping, as Python `job.resources.get(key)`. -/
def Resources.get (r : Resources) (k : String) : Option String :=
  (List.find? (fun p => p.1 == k) r.entries).map Prod.snd

/-- The namedtuple `SlurmJob = namedtuple("SlurmJob", "job jobid callback
error_callback")` from line 24.  The `job` field is represented by the
job name; the two callbacks are identified by the job they belong to, so
firing a callback is recorded as the job name in an event list. -/
structure SlurmJob where
  jobName : String
  jobid : String
deriving DecidableEq

/-- The tuple `fail_stati` from lines 304-314 of `_wait_for_jobs`. -/
def fail_stati : List String :=
  ["BOOT_FAIL", "OUT_OF_MEMORY", "CANCELLED", "FAILED", "NODE_FAIL",
   "DEADLINE", "PREEMPTED", "TIMEOUT", "ERROR"]

/-- Outcome of classifying one observed status string. -/
inductive PollAction where
  | success
  | failure
  | keep
deriving DecidableEq

/-- Classification of an observed status string, lines 325-331:
`if status == "COMPLETED": j.callback(j.job)` /
`elif status in fail_stati: ... j.error_callback(j.job)` /
`else: still_running.append(j)`. -/
def classify (status : String) : PollAction :=
  if status = "COMPLETED" then .success
  else if status ∈ fail_stati then .failure
  else .keep

/-- Result of one pass of the `for j in active_jobs` loop of
`_wait_for_jobs` (lines 323-331): the jobs whose success callback fired,
the jobs whose error callback fired, and `still_running`. -/
structure SweepResult where
  succeeded : List SlurmJob
  failed : List SlurmJob
  still_running : List SlurmJob
deriving DecidableEq

/-- The body of `_wait_for_jobs`: iterate over the snapshot of active
jobs, query the status of each (the query `self.job_status(j)` is passed
in as the oracle `status_of`, applied to the whole namedtuple exactly as
line 324 does), and classify.  Relative order inside each bucket follows
iteration order, as in the source. -/
def sweepStep (status_of : SlurmJob → String) : List SlurmJob → SweepResult
  | [] => ⟨[], [], []⟩
  | j :: rest =>
    let r := sweepStep status_of rest
    match classify (status_of j) with
    | .success => ⟨j :: r.succeeded, r.failed, r.still_running⟩
    | .failure => ⟨r.succeeded, j :: r.failed, r.still_running⟩
    | .keep => ⟨r.succeeded, r.failed, j :: r.still_running⟩

/-- Observable outcome of one `subprocess.run(shlex.split("scancel <id>"),
timeout=60)` call in `cancel` (line 90): the process either finishes
within the timeout or `TimeoutExpired` is raised. -/
inductive CancelOutcome where
  | finished
  | timeoutExpired
deriving DecidableEq

/-- The timeout passed to every `scancel` invocation, line 90. -/
def scancelTimeout : Nat := 60

/-- The `cancel` method, lines 82-93: for every active job, run
`scancel <jobid>` bounded by `scancelTimeout`; `TimeoutExpired` is caught
by the `except` clause (`pass`) so the loop continues either way.  The
result is the log of attempted cancel commands, each recorded with the
job id and the timeout it was bounded by. -/
def cancel (behavior : String → CancelOutcome) : List SlurmJob → List (String × Nat)
  | [] => []
  | j :: rest =>
    match behavior j.jobid with
    | .finished => (j.jobid, scancelTimeout) :: cancel behavior rest
    | .timeoutExpired => (j.jobid, scancelTimeout) :: cancel behavior rest

/-- Test whether a path string is absolute (starts with the POSIX
separator), character-level reading of `os.path` behaviour. -/
def isAbsolute (p : String) : Bool := p.data.head? == some '/'

/-- Model of `os.path.abspath` for the uses in this file: an absolute
path is returned unchanged, a relative one is joined to the current
working directory. -/
def abspath (cwd p : String) : String :=
  if isAbsolute p then p else cwd ++ "/" ++ p

/-- State of the executor instance relevant to the `tmpdir` property
(lines 118-122) together with the filesystem effects of
`tempfile.mkdtemp`: the private field `self._tmpdir`, the list of
directories created so far, and a counter from which `mkdtemp` draws its
fresh suffix. -/
structure TmpState where
  tmpdir_field : Option String
  created_dirs : List String
  counter : Nat
deriving DecidableEq

/-- Model of `tempfile.mkdtemp(dir=".snakemake", prefix="tmp.")`
(line 121): creates one fresh directory under `.snakemake` and returns
its (relative) path. -/
def mkdtemp (st : TmpState) : String × TmpState :=
  let name := ".snakemake/tmp." ++ toString st.counter
  (name, { st with created_dirs := st.created_dirs ++ [name],
                   counter := st.counter + 1 })

/-- The `tmpdir` property, lines 118-122: create the private directory
lazily on first use, cache it in `self._tmpdir`, and always return
`os.path.abspath(self._tmpdir)`. -/
def tmpdir (cwd : String) (st : TmpState) : String × TmpState :=
  match st.tmpdir_field with
  | none =>
    let p := mkdtemp st
    (abspath cwd p.1, { p.2 with tmpdir_field := some p.1 })
  | some d => (abspath cwd d, st)

/-- Character-level reading of `os.path.sep in f` (line 127) for the
POSIX separator. -/
def contains_sep (f : String) : Bool := f.data.contains '/'

/-- The `WorkflowError` message raised by `get_jobscript`, lines 128-131. -/
def sep_msg (f : String) : String :=
  "Path separator (/) found in job name " ++ f ++ ". This is not supported."

/-- Model of `os.path.join(a, b)` for the shapes used here: `b` is
returned as-is when absolute, otherwise joined with the separator
(`a` never ends in the separator at the call sites). -/
def path_join (a b : String) : String :=
  if isAbsolute b then b else a ++ "/" ++ b

/-- The `get_jobscript` method, lines 124-133: `f` is the jobscript name
after wildcard expansion of the naming pattern (the expansion itself is
performed by the workflow engine's `format_wildcards`, outside this
file, so the expanded name is the input); raise `WorkflowError` if it
contains the path separator, otherwise join it under `tmpdir`. -/
def get_jobscript (tmpd f : String) : Except String String :=
  if contains_sep f then .error (sep_msg f)
  else .ok (path_join tmpd f)

/-- Python default whitespace for `str.strip`. -/
def isPySpace (c : Char) : Bool :=
  c = ' ' || c = '\t' || c = '\n' || c = '\r' || c = '\x0b' || c = '\x0c'

/-- Model of Python `str.strip()`. -/
def pyStrip (s : String) : String :=
  ⟨((s.data.dropWhile isPySpace).reverse.dropWhile isPySpace).reverse⟩

/-- Model of Python `str.split(sep)` for a one-character separator:
keeps empty fields, and splitting the empty string yields one empty
field. -/
def splitChar (sep : Char) (l : List Char) : List (List Char) :=
  l.foldr
    (fun c acc =>
      if c = sep then [] :: acc
      else
        match acc with
        | h :: t => (c :: h) :: t
        | [] => [[c]])
    [[]]

/-- Python `out.split(" ")[-1]`: the last whitespace-delimited field of
the submit output (line 259).  `split` always returns a non-empty list,
so the `[-1]` index never fails. -/
def lastToken (s : String) : String := ⟨(splitChar ' ' s.data).getLastD []⟩

/-- First missing placeholder of the mandatory submission string
(lines 201-206): `str.format` resolves `{account}`, `{partition}`,
`{walltime_minutes}` in that order and raises `KeyError` at the first
key absent from `job.resources` (`{jobname}` is always supplied). -/
def firstMissingMandatory (r : Resources) : Option String :=
  if (r.get "account").isNone then some "account"
  else if (r.get "partition").isNone then some "partition"
  else if (r.get "walltime_minutes").isNone then some "walltime_minutes"
  else none

/-- The `logger.error` message of lines 208-212, formatted with the
missing key and the job name (`\x27` is the ASCII apostrophe). -/
def missingKeyMsg (k job_name : String) : String :=
  "Missing job submission key \x27" ++ k ++ "\x27 for job \x27" ++ job_name ++ "\x27."

/-- The memory block of `run`, lines 218-225: prefer `mem_mb_per_cpu`
(one `--mem-per-cpu=<v>` token) over `mem_mb` (`--mem <v>`); with
neither, add nothing and set the warning flag (`logger.warning`). -/
def memTokens (r : Resources) : List String × Bool :=
  if truthy (r.get "mem_mb_per_cpu") then
    (["--mem-per-cpu=" ++ (r.get "mem_mb_per_cpu").getD ""], false)
  else if truthy (r.get "mem_mb") then
    (["--mem", (r.get "mem_mb").getD ""], false)
  else ([], true)

/-- The submission-shape block of `run`, lines 228-238: a truthy `mpi`
resource adds nothing (`pass`), an ordinary (non-MPI, non-group) job
formats `" -n 1 -c {threads}"` from `job.resources` — raising `KeyError`
when the `threads` key is absent — and a group job adds nothing. -/
def shapeTokens (r : Resources) (is_group : Bool) : Except String (List String) :=
  if truthy (r.get "mpi") then .ok []
  else if !is_group then
    match r.get "threads" with
    | some t => .ok ["-n", "1", "-c", t]
    | none => .error "threads"
  else .ok []

/-- Outcome of building the `sbatch` command line in `run`. -/
inductive BuildOutcome where
  | sysExit (log_msg : String)
  | keyErrorCrash (key : String)
  | built (tokens : List String) (mem_warning : Bool)
deriving DecidableEq

/-- The command construction of `run`, lines 200-253, as the token list
that `shlex.split(call)` hands to `subprocess.check_output` (line 255;
`shlex.split` collapses the whitespace runs of the source's multi-line
literal).  A missing mandatory key is caught (`except KeyError`) and
answered with `logger.error` plus `sys.exit(1)`; a missing `threads`
key in the ordinary-job branch raises an uncaught `KeyError`. -/
def buildCall (r : Resources) (jobname job_name : String) (is_group : Bool)
    (workdir_init jobscript : String) : BuildOutcome :=
  match firstMissingMandatory r with
  | some k => .sysExit (missingKeyMsg k job_name)
  | none =>
    let base := ["sbatch", "-A", (r.get "account").getD "",
                 "-p", (r.get "partition").getD "",
                 "-t", (r.get "walltime_minutes").getD "",
                 "-J", jobname,
                 "-o", ".snakemake/slurm_logs/%x_%j.log", "--export=ALL"]
    let con := if truthy (r.get "constraint")
               then ["-C", (r.get "constraint").getD ""] else []
    let m := memTokens r
    match shapeTokens r is_group with
    | .error k => .keyErrorCrash k
    | .ok sh =>
      .built (base ++ con ++ m.1 ++ sh ++ ["--chdir=" ++ workdir_init, jobscript]) m.2

/-- Executor state that the submission path can touch: the shared
`self.active_jobs` list and the record of callbacks fired so far (a
callback firing for a job appends that job's name). -/
structure ExecSt where
  active_jobs : List SlurmJob
  error_callbacks_fired : List String
  callbacks_fired : List String
deriving DecidableEq

/-- Final outcome of one `run(job, ...)` call. -/
inductive RunOutcome where
  | sysExit (log_msg : String)
  | keyErrorCrash (key : String)
  | nameErrorOut
  | submitted (entry : SlurmJob)
deriving DecidableEq

/-- The `run` method, lines 194-260.  `submit_result` is the observable
behaviour of `subprocess.check_output(shlex.split(call))` at line 255:
`none` when it raises (non-zero exit of `sbatch`, or any other error)
and `some out` with the captured stdout on success.  The bare
`except: pass` of lines 256-257 swallows the raised error, after which
line 259 evaluates `out.split(" ")[-1]` with `out` never assigned, so
the call dies with an uncaught `NameError` (`RunOutcome.nameErrorOut`);
no callback is invoked and no entry is appended on that path.  On
success the last token of the stripped output becomes the external id
and the `SlurmJob` entry is appended to `active_jobs` (line 260). -/
def run (r : Resources) (jobname job_name : String) (is_group : Bool)
    (workdir_init jobscript : String) (submit_result : Option String)
    (st : ExecSt) : RunOutcome × ExecSt :=
  match buildCall r jobname job_name is_group workdir_init jobscript with
  | .sysExit m => (.sysExit m, st)
  | .keyErrorCrash k => (.keyErrorCrash k, st)
  | .built _ _ =>
    match submit_result with
    | none => (.nameErrorOut, st)
    | some out =>
      let jobid := lastToken (pyStrip out)
      let entry : SlurmJob := ⟨job_name, jobid⟩
      (.submitted entry, { st with active_jobs := st.active_jobs ++ [entry] })

/-- A complete resource set for an ordinary job (all mandatory keys, a
thread count and a memory request). -/
def rComplete : Resources :=
  ⟨[("account", "acct1"), ("partition", "batch"), ("walltime_minutes", "60"),
    ("threads", "4"), ("mem_mb_per_cpu", "2000")]⟩

/-- The same resource set with the `account` key removed. -/
def rNoAccount : Resources :=
  ⟨[("partition", "batch"), ("walltime_minutes", "60"),
    ("threads", "4"), ("mem_mb_per_cpu", "2000")]⟩

/-- The resource mapping of the C6 scenario exactly as the claim states
it: `mem_mb_per_cpu=2000`, `cores=4`, `partition=batch`,
`account=acct1`, `walltime_minutes=60` (the spec's Job model lists
`cores`, not `threads`, among the resource keys). -/
def rScenario : Resources :=
  ⟨[("mem_mb_per_cpu", "2000"), ("cores", "4"), ("partition", "batch"),
    ("account", "acct1"), ("walltime_minutes", "60")]⟩

/-- The C6 scenario resources with a `threads` key added, which is the
key line 236 actually formats. -/
def rScenarioThreads : Resources :=
  ⟨rScenario.entries ++ [("threads", "4")]⟩

/-- Mandatory keys and `threads` present, but no memory key. -/
def rNoMem : Resources :=
  ⟨[("account", "acct1"), ("partition", "batch"), ("walltime_minutes", "60"),
    ("threads", "4")]⟩

/-- An executor state with no active jobs and no callbacks fired. -/
def st0 : ExecSt := ⟨[], [], []⟩

/-- Observable result of one external status-query process call
(`subprocess.check_output` on `sacct` or `scontrol`): either the
process exits non-zero (`CalledProcessError`) or it produces captured
output.  Both calls omit `encoding`, so the captured output is bytes;
`output s` carries those bytes as the string they decode to, which is
what the `scontrol` path consumes via `sctrl_res.decode()` (line 288),
while the `sacct` path never consumes them at all — line 275 splits
the bytes with a str separator and dies with `TypeError` first. -/
inductive QueryResult where
  | procError
  | output (s : String)
deriving DecidableEq

/-- The behaviour of the external scheduler queries as consumed by
`job_status`: the result of the i-th `sacct` call and of the i-th
`scontrol` call. -/
structure StatusEnv where
  sacct : Nat → QueryResult
  scontrol : Nat → QueryResult

/-- Python dict lookup over an association list (`res[jobid]`): a later
binding of the same key overwrites an earlier one. -/
def dictGet (d : List (String × String)) (k : String) : Option String :=
  (List.find? (fun p => p.1 == k) d.reverse).map Prod.snd

/-- Word characters of the regex class `\w`. -/
def isWordChar (c : Char) : Bool := c.isAlphanum || c = '_'

/-- The regex search `re.search("JobState=(\w+)", out)` of line 288:
scan for the first position where `JobState=` is followed by at least
one word character and return that word. -/
def jobStateSearch : List Char → Option (List Char)
  | [] => none
  | c :: rest =>
    if List.isPrefixOf ("JobState=".data) (c :: rest) then
      let w := ((c :: rest).drop ("JobState=".data).length).takeWhile isWordChar
      if w.isEmpty then jobStateSearch rest else some w
    else jobStateSearch rest

/-- String-level wrapper for the `JobState` regex search. -/
def findJobState (out : String) : Option String :=
  (jobStateSearch out.data).map fun w => ⟨w⟩

/-- Ways `job_status` can finish.  `typeError` is the uncaught
`TypeError` of line 275; `nameError` an uncaught `NameError`;
`keyError` the `KeyError` a `return res[jobid]` on a dict without the
id would raise; `attrError` the `AttributeError` of `m.group(1)` when
the regex search returned `None`; `workflowError` the
`raise WorkflowError` of line 296 (never constructed: the guard on
line 295 cannot be evaluated). -/
inductive JobStatusResult where
  | ok (status : String)
  | typeError
  | nameError (v : String)
  | keyError (k : String)
  | attrError
  | workflowError (msg : String)
deriving DecidableEq

/-- The `return res[jobid]` of line 298, reached after a `break` or
after the loop ends: reading `res` when it was never assigned raises
`NameError`; a dict without the job id raises `KeyError`. -/
def returnRes (jobid : String) (res : Option (List (String × String))) :
    JobStatusResult :=
  match res with
  | none => .nameError "res"
  | some d =>
    match dictGet d jobid with
    | some v => .ok v
    | none => .keyError jobid

/-- The constant of line 266 — note the source spells it
`STATUS_ATTEMPS`, while line 295 references `STATUS_ATTEMPTS`. -/
def STATUS_ATTEMPS : Nat := 10

/-- The `for i in range(STATUS_ATTEMPS)` loop of `job_status`
(lines 267-296), iteration indices passed as a list and `res` as an
optional value that is `none` while the Python variable is unassigned.
Per iteration: try `sacct` (lines 271-277).  `subprocess.check_output`
is called WITHOUT `encoding`, so `sacct_res` is bytes, and line 275
evaluates `sacct_res.strip().split("\n")` — splitting bytes with a str
separator, which in Python 3 raises `TypeError`; only
`CalledProcessError` and `IndexError` are caught (lines 278-282), so
ANY sacct output kills `job_status` with an uncaught `TypeError`
before `res` could be assigned, and the dict comprehension with its
`IndexError` path is unreachable.  On a `CalledProcessError` (caught),
control reaches `if not res:` (line 284), which raises `NameError`
when `res` was never assigned; when `res` is bound but falsy, try
`scontrol` (lines 285-293), whose output IS decoded
(`sctrl_res.decode()`, line 288): a successful match on `JobState=`
assigns `res` and breaks (control reaches `return res[jobid]`), a
`CalledProcessError` is caught, and a missing match makes `m.group(1)`
raise `AttributeError` (uncaught); any path that then reaches line 295
evaluates `i >= STATUS_ATTEMPTS - 1`, a misspelling of the constant
that raises an uncaught `NameError`, so no later iteration and no
`raise WorkflowError` (line 296) is ever reached. -/
def job_status_loop (env : StatusEnv) (jobid : String) :
    List Nat → Option (List (String × String)) → JobStatusResult
  | [], res => returnRes jobid res
  | i :: _, res =>
    match env.sacct i with
    | .output _ => .typeError
    | .procError =>
      match res with
      | none => .nameError "res"
      | some d =>
        if d.isEmpty then
          match env.scontrol i with
          | .procError => .nameError "STATUS_ATTEMPTS"
          | .output s =>
            match findJobState s with
            | some w => returnRes jobid (some [(jobid, w)])
            | none => .attrError
        else .nameError "STATUS_ATTEMPTS"

/-- The `job_status` method, lines 262-298. -/
def job_status (env : StatusEnv) (jobid : String) : JobStatusResult :=
  job_status_loop env jobid (List.range STATUS_ATTEMPS) none

/-- A scheduler on which every `sacct` call fails with a process error
but every `scontrol` call would answer `JobState=COMPLETED`: a working
fallback. -/
def envScontrolWouldAnswer : StatusEnv :=
  ⟨fun _ => .procError, fun _ => .output "JobId=123 JobState=COMPLETED Reason=None"⟩

/-- A scheduler on which every `sacct` and every `scontrol` call fails
with a process error: the exhaustion case the claim is about. -/
def envAllProcError : StatusEnv :=
  ⟨fun _ => .procError, fun _ => .procError⟩

/-- A scheduler on which every `sacct` call succeeds and prints the
well-formed accounting line `123|COMPLETED`. -/
def envSacctAnswers : StatusEnv :=
  ⟨fun _ => .output "123|COMPLETED", fun _ => .procError⟩

/-- A scheduler whose first `sacct` call succeeds but prints output
with no `|` field separator (unparseable even at text level), while
every `scontrol` call would answer `JobState=COMPLETED`. -/
def envSacctGarbage : StatusEnv :=
  ⟨fun _ => .output "", fun _ => .output "JobId=123 JobState=COMPLETED Reason=None"⟩

/-- Atomic actions of the two concurrent code paths that touch
`self.active_jobs`.  The poller (`_wait_for_jobs`, lines 315-334)
executes `snapClear` (lines 317-322, under `with self.lock`: read the
list reference into a local, install a fresh empty list), `pollLoop`
(lines 323-331, no lock: iterate the snapshotted list object, classify
each entry, collect `still_running`) and `merge` (lines 333-334, under
`with self.lock`: extend the current list with `still_running`).  The
submitter (`run`, line 260) executes the unlocked
`self.active_jobs.append(...)`, which at bytecode granularity is two
steps: `readRef` (load the attribute — a reference to a list object)
and `append` (mutate that object).  Because the submitter takes no
lock, its two steps may interleave anywhere with the poller's. -/
inductive RaceAction where
  | readRef
  | append
  | snapClear
  | pollLoop
  | merge
deriving DecidableEq

/-- Whether the source executes the action inside `with self.lock`. -/
def holdsLock : RaceAction → Bool
  | .snapClear => true
  | .merge => true
  | _ => false

/-- Shared and thread-local state for the interleaving model: a heap of
list objects (indexed by allocation order), the object
`self.active_jobs` currently refers to, the submitter's loaded
reference, the poller's snapshot reference and its local
`still_running`, plus the log of entries polled so far. -/
structure RaceState where
  heap : List (List String)
  activeRef : Nat
  subLocal : Option Nat
  snap : Option Nat
  still : List String
  polled : List String
deriving DecidableEq

/-- Contents of a heap list object. -/
def heapGet (h : List (List String)) (i : Nat) : List String := h.getD i []

/-- External id of the job submitted mid-sweep. -/
def newJobId : String := "jobX"

/-- Status reported for every polled entry in the race scenario: still
running, so `classify` keeps it. -/
def statusOracle : String → String := fun _ => "RUNNING"

/-- One atomic step of either thread.  `append` on an unread reference
and `pollLoop` before a snapshot cannot occur in program-order-valid
interleavings and leave the state unchanged. -/
def raceStep (s : RaceState) : RaceAction → RaceState
  | .readRef => { s with subLocal := some s.activeRef }
  | .append =>
    match s.subLocal with
    | some r => { s with heap := s.heap.set r (heapGet s.heap r ++ [newJobId]) }
    | none => s
  | .snapClear =>
    { s with snap := some s.activeRef,
             heap := s.heap ++ [[]],
             activeRef := s.heap.length }
  | .pollLoop =>
    match s.snap with
    | some a =>
      let items := heapGet s.heap a
      { s with polled := s.polled ++ items,
               still := items.filter (fun j => classify (statusOracle j) == PollAction.keep) }
    | none => s
  | .merge =>
    { s with heap := s.heap.set s.activeRef (heapGet s.heap s.activeRef ++ s.still) }

/-- Initial state: one empty active list, nothing loaded, nothing
polled. -/
def raceInit : RaceState := ⟨[[]], 0, none, none, [], []⟩

/-- Execute a sequence of atomic actions from the initial state. -/
def raceExec (tr : List RaceAction) : RaceState := tr.foldl raceStep raceInit

/-- The active set visible through `self.active_jobs` after a trace. -/
def finalActive (tr : List RaceAction) : List String :=
  heapGet (raceExec tr).heap (raceExec tr).activeRef

/-- Program order of one poller sweep. -/
def pollerProg : List RaceAction := [.snapClear, .pollLoop, .merge]

/-- Program order of one submission's access to the active list. -/
def subProg : List RaceAction := [.readRef, .append]

/-- Fuel-indexed worker for `interleavings`; the fuel is structurally
decreasing and always at least the total remaining length at the call
sites, so the fuel-exhausted branch is never taken. -/
def interleavingsF : Nat → List RaceAction → List RaceAction → List (List RaceAction)
  | 0, xs, ys => [xs ++ ys]
  | _ + 1, [], ys => [ys]
  | _ + 1, x :: xs, [] => [x :: xs]
  | n + 1, x :: xs, y :: ys =>
    (interleavingsF n xs (y :: ys)).map (fun t => x :: t) ++
    (interleavingsF n (x :: xs) ys).map (fun t => y :: t)

/-- All interleavings of two action sequences that preserve each
thread's program order. -/
def interleavings (xs ys : List RaceAction) : List (List RaceAction) :=
  interleavingsF (xs.length + ys.length) xs ys

-- THEOREMS

/-- C4: for every observed status string, the classification of
`_wait_for_jobs` is total and exhaustive: every string in `fail_stati`
routes the entry to the error callback and removes it, exactly
`COMPLETED` routes it to the success callback and removes it, and every
other string leaves the entry in `still_running` (to be merged back for
the next sweep) with no callback fired. -/
theorem c4_classification_total (s : String) (f : SlurmJob → String) (j : SlurmJob) :
    (s ∈ fail_stati → classify s = .failure) ∧
    (classify "COMPLETED" = .success) ∧
    (s ∉ fail_stati → s ≠ "COMPLETED" → classify s = .keep) ∧
    (f j = s → s ∈ fail_stati → sweepStep f [j] = ⟨[], [j], []⟩) ∧
    (f j = "COMPLETED" → sweepStep f [j] = ⟨[j], [], []⟩) ∧
    (f j = s → s ∉ fail_stati → s ≠ "COMPLETED" → sweepStep f [j] = ⟨[], [], [j]⟩) := by
  have hns : s ∈ fail_stati → s ≠ "COMPLETED" := by
    intro h
    fin_cases h <;> decide
  have h1 : s ∈ fail_stati → classify s = .failure := by
    intro h
    unfold classify
    rw [if_neg (hns h), if_pos h]
  have h3 : s ∉ fail_stati → s ≠ "COMPLETED" → classify s = .keep := by
    intro h h2
    unfold classify
    rw [if_neg h2, if_neg h]
  refine ⟨h1, by decide, h3, ?_, ?_, ?_⟩
  · intro hf h
    simp [sweepStep, hf, h1 h]
  · intro hf
    simp [sweepStep, hf, classify]
  · intro hf h h2
    simp [sweepStep, hf, h3 h h2]

/-- Witness for C4 at concrete inputs: a failure status, the success
status and an unknown status each take the stated branch. -/
theorem c4_classification_total_witness :
    ("OUT_OF_MEMORY" ∈ fail_stati ∧
      sweepStep (fun _ => "OUT_OF_MEMORY") [⟨"job_a", "17"⟩] = ⟨[], [⟨"job_a", "17"⟩], []⟩) ∧
    sweepStep (fun _ => "COMPLETED") [⟨"job_a", "17"⟩] = ⟨[⟨"job_a", "17"⟩], [], []⟩ ∧
    sweepStep (fun _ => "PENDING") [⟨"job_a", "17"⟩] = ⟨[], [], [⟨"job_a", "17"⟩]⟩ :=
  ⟨⟨by decide,
    (c4_classification_total "OUT_OF_MEMORY" (fun _ => "OUT_OF_MEMORY") ⟨"job_a", "17"⟩).2.2.2.1
      rfl (by decide)⟩,
   (c4_classification_total "COMPLETED" (fun _ => "COMPLETED") ⟨"job_a", "17"⟩).2.2.2.2.1 rfl,
   (c4_classification_total "PENDING" (fun _ => "PENDING") ⟨"job_a", "17"⟩).2.2.2.2.2
     rfl (by decide) (by decide)⟩

/-- C7: invoking `cancel` with K active jobs attempts a `scancel` for
every one of the K jobs, each bounded by the independent 60-second
timeout, and the attempt log is independent of which attempts hit their
timeout: a hung cancel never prevents the remaining attempts. -/
theorem c7_cancel_attempts_all (behavior behavior2 : String → CancelOutcome)
    (jobs : List SlurmJob) :
    cancel behavior jobs = jobs.map (fun j => (j.jobid, scancelTimeout)) ∧
    cancel behavior jobs = cancel behavior2 jobs ∧
    (cancel behavior jobs).length = jobs.length ∧
    scancelTimeout = 60 := by
  have key : ∀ (b : String → CancelOutcome) (l : List SlurmJob),
      cancel b l = l.map (fun j => (j.jobid, scancelTimeout)) := by
    intro b l
    induction l with
    | nil => rfl
    | cons j rest ih =>
      cases hb : b j.jobid <;> simp [cancel, hb, ih]
  refine ⟨key behavior jobs, ?_, ?_, rfl⟩
  · rw [key behavior jobs, key behavior2 jobs]
  · rw [key behavior jobs, List.length_map]

/-- C8: the `tmpdir` accessor creates exactly one private directory per
executor instance, lazily on first use, scoped under `.snakemake`, and
is idempotent: the second call returns the same absolute path and the
same state (no further directory is created), so by induction every
subsequent call does too. -/
theorem c8_tmpdir_idempotent (cwd : String) (st : TmpState)
    (habs : isAbsolute cwd = true) (h : st.tmpdir_field = none) :
    (tmpdir cwd (tmpdir cwd st).2).1 = (tmpdir cwd st).1 ∧
    (tmpdir cwd (tmpdir cwd st).2).2 = (tmpdir cwd st).2 ∧
    ((tmpdir cwd st).2).created_dirs
      = st.created_dirs ++ [".snakemake/tmp." ++ toString st.counter] ∧
    ((tmpdir cwd st).2).tmpdir_field = some (".snakemake/tmp." ++ toString st.counter) ∧
    isAbsolute (tmpdir cwd st).1 = true ∧
    (".snakemake/").data <+: (".snakemake/tmp." ++ toString st.counter).data := by
  have hrel : ∀ n : String, isAbsolute (".snakemake/tmp." ++ n) = false := by
    intro n
    cases n
    rfl
  have habs2 : ∀ q : String, isAbsolute (cwd ++ "/" ++ q) = true := by
    intro q
    unfold isAbsolute at habs ⊢
    rw [data_append, data_append]
    cases hc : cwd.data with
    | nil => rw [hc] at habs; simp at habs
    | cons c l =>
      rw [hc] at habs
      simp at habs ⊢
      exact habs
  constructor
  · simp [tmpdir, mkdtemp, h]
  constructor
  · simp [tmpdir, mkdtemp, h]
  constructor
  · simp [tmpdir, mkdtemp, h]
  constructor
  · simp [tmpdir, mkdtemp, h]
  constructor
  · simp only [tmpdir, mkdtemp, h]
    rw [abspath, hrel (toString st.counter)]
    · exact habs2 _
  · have hsplit : (".snakemake/tmp." ++ toString st.counter).data
        = (".snakemake/").data ++ ("tmp." ++ toString st.counter).data := by
      rw [data_append, data_append, ← List.append_assoc]
      congr 1
    rw [hsplit]
    exact List.prefix_append _ _

/-- Witness for C8 at a concrete state: fresh executor state, absolute
working directory. -/
theorem c8_tmpdir_idempotent_witness :
    (tmpdir "/home/u" (tmpdir "/home/u" ⟨none, [], 0⟩).2).1
        = (tmpdir "/home/u" ⟨none, [], 0⟩).1 ∧
    (tmpdir "/home/u" (tmpdir "/home/u" ⟨none, [], 0⟩).2).2
        = (tmpdir "/home/u" ⟨none, [], 0⟩).2 ∧
    ((tmpdir "/home/u" ⟨none, [], 0⟩).2).created_dirs
        = [] ++ [".snakemake/tmp." ++ toString 0] ∧
    ((tmpdir "/home/u" ⟨none, [], 0⟩).2).tmpdir_field
        = some (".snakemake/tmp." ++ toString 0) ∧
    isAbsolute (tmpdir "/home/u" ⟨none, [], 0⟩).1 = true ∧
    (".snakemake/").data <+: (".snakemake/tmp." ++ toString 0).data :=
  c8_tmpdir_idempotent "/home/u" ⟨none, [], 0⟩ (by decide) rfl

/-- C10: for every job whose expanded jobscript name contains the path
separator, `get_jobscript` raises `WorkflowError` and no path is
produced; for every other name it returns the name joined under the
workspace directory (the workspace path is a prefix of the result). -/
theorem c10_get_jobscript (tmpd f : String) :
    (contains_sep f = true → get_jobscript tmpd f = .error (sep_msg f)) ∧
    (contains_sep f = false →
      get_jobscript tmpd f = .ok (tmpd ++ "/" ++ f) ∧
      tmpd.data <+: (tmpd ++ "/" ++ f).data) := by
  constructor
  · intro h
    simp [get_jobscript, h]
  · intro h
    have hrel : isAbsolute f = false := by
      unfold isAbsolute
      unfold contains_sep at h
      cases hf : f.data with
      | nil => rfl
      | cons c l =>
        rw [hf] at h
        simp [List.contains_cons] at h
        simp
        intro hc
        exact absurd hc.symm h.1
    constructor
    · simp [get_jobscript, h, path_join, hrel]
    · rw [data_append, data_append, List.append_assoc]
      exact List.prefix_append _ _

/-- Witness for C10 at concrete names: one name with a separator, one
without. -/
theorem c10_get_jobscript_witness :
    (contains_sep "snakejob.a/b.sh" = true ∧
      get_jobscript "/w/.snakemake/tmp.0" "snakejob.a/b.sh"
        = .error (sep_msg "snakejob.a/b.sh")) ∧
    (contains_sep "snakejob.a.sh" = false ∧
      get_jobscript "/w/.snakemake/tmp.0" "snakejob.a.sh"
        = .ok ("/w/.snakemake/tmp.0" ++ "/" ++ "snakejob.a.sh")) :=
  ⟨⟨by decide,
    (c10_get_jobscript "/w/.snakemake/tmp.0" "snakejob.a/b.sh").1 (by decide)⟩,
   ⟨by decide,
    ((c10_get_jobscript "/w/.snakemake/tmp.0" "snakejob.a.sh").2 (by decide)).1⟩⟩

/-- The error message of lines 208-212 contains both the missing key
and the job name. -/
theorem missingKeyMsg_names (k jn : String) :
    k.data <:+: (missingKeyMsg k jn).data ∧ jn.data <:+: (missingKeyMsg k jn).data := by
  constructor
  · refine ⟨("Missing job submission key \x27").data,
      ("\x27 for job \x27" ++ jn ++ "\x27.").data, ?_⟩
    simp [missingKeyMsg, data_append, List.append_assoc]
  · refine ⟨("Missing job submission key \x27" ++ k ++ "\x27 for job \x27").data,
      ("\x27.").data, ?_⟩
    simp [missingKeyMsg, data_append, List.append_assoc]

/-- C1 (code bug): when the submit command fails (line 255 raises), the
bare `except: pass` of lines 256-257 swallows the error and line 259
then reads the never-assigned variable `out`, so `run` dies with an
uncaught `NameError`: the job is indeed not added to the active set,
but the error callback is NOT invoked and no `SubmissionFailed`
classification exists — the state is returned untouched.  The second
conjunct shows the successful path for contrast: exactly one entry with
the non-empty external id parsed from the submit output. -/
theorem c1_submit_failure_crashes_without_callback :
    run rComplete "snakejob.sh" "job_a" false "/wd" "/s.sh" none st0
      = (.nameErrorOut, st0) ∧
    st0.error_callbacks_fired = [] ∧ st0.active_jobs = [] ∧
    run rComplete "snakejob.sh" "job_a" false "/wd" "/s.sh"
        (some "Submitted batch job 42\n") st0
      = (.submitted ⟨"job_a", "42"⟩, ⟨[⟨"job_a", "42"⟩], [], []⟩) := by
  decide

/-- C2 counterexample: for the job `job_a` missing only the `account`
resource, `run` does not fail in a way isolated to that job — it
executes `sys.exit(1)` (lines 208-213), terminating the whole executor
process (and with it all sibling jobs), contradicting the claim that
the executor process is not crashed. -/
theorem c2_counterexample :
    run rNoAccount "snakejob.sh" "job_a" false "/wd" "/s.sh"
        (some "Submitted batch job 42\n") st0
      = (.sysExit (missingKeyMsg "account" "job_a"), st0) ∧
    missingKeyMsg "account" "job_a"
      = "Missing job submission key \x27account\x27 for job \x27job_a\x27." := by
  decide

/-- C2 (amended): for every job missing one of the mandatory resource
keys, submission fails before any submit attempt with an error message
naming the first missing key and the job, and no Active Job Entry is
created and no callback fires — but the failure is not isolated to that
job: the executor process is terminated via `sys.exit(1)`, aborting
sibling jobs. -/
theorem c2_missing_key_exits_process (r : Resources) (jn job_name : String)
    (g : Bool) (wd js out : String) (st : ExecSt) (k : String)
    (h : firstMissingMandatory r = some k) :
    run r jn job_name g wd js (some out) st
      = (.sysExit (missingKeyMsg k job_name), st) ∧
    (run r jn job_name g wd js (some out) st).2.active_jobs = st.active_jobs ∧
    (run r jn job_name g wd js (some out) st).2.error_callbacks_fired
      = st.error_callbacks_fired ∧
    k.data <:+: (missingKeyMsg k job_name).data ∧
    job_name.data <:+: (missingKeyMsg k job_name).data := by
  have hr : run r jn job_name g wd js (some out) st
      = (.sysExit (missingKeyMsg k job_name), st) := by
    unfold run buildCall
    rw [h]
  refine ⟨hr, ?_, ?_, (missingKeyMsg_names k job_name).1, (missingKeyMsg_names k job_name).2⟩
  · rw [hr]
  · rw [hr]

/-- Witness for C2 (amended) at the concrete job missing `account`. -/
theorem c2_missing_key_exits_process_witness :
    run rNoAccount "snakejob.sh" "job_a" false "/wd" "/s.sh"
        (some "Submitted batch job 42\n") st0
      = (.sysExit (missingKeyMsg "account" "job_a"), st0) ∧
    (run rNoAccount "snakejob.sh" "job_a" false "/wd" "/s.sh"
        (some "Submitted batch job 42\n") st0).2.active_jobs = st0.active_jobs ∧
    (run rNoAccount "snakejob.sh" "job_a" false "/wd" "/s.sh"
        (some "Submitted batch job 42\n") st0).2.error_callbacks_fired
      = st0.error_callbacks_fired ∧
    ("account").data <:+: (missingKeyMsg "account" "job_a").data ∧
    ("job_a").data <:+: (missingKeyMsg "account" "job_a").data :=
  c2_missing_key_exits_process rNoAccount "snakejob.sh" "job_a" false "/wd" "/s.sh"
    "Submitted batch job 42\n" st0 "account" (by decide)

/-- C6 counterexample: for the scenario resources exactly as the claim
lists them (`cores=4`, no `threads` key), the ordinary-job branch of
`run` formats `" -n 1 -c {threads}"` from `job.resources` (line 236)
and raises an uncaught `KeyError("threads")` — no submission command
containing `-c 4` is ever produced. -/
theorem c6_counterexample :
    buildCall rScenario "snakejob.sh" "job_a" false "/wd" "/s.sh"
      = .keyErrorCrash "threads" ∧
    run rScenario "snakejob.sh" "job_a" false "/wd" "/s.sh"
        (some "Submitted batch job 42\n") st0
      = (.keyErrorCrash "threads", st0) := by
  decide

/-- C6 (amended): for a non-MPI, non-group job with the scenario
resources plus `threads=4` (the key line 236 actually reads; the spec's
`cores` key is ignored by the command builder), the generated command
includes `--mem-per-cpu=2000`, `-n 1 -c 4`, `-p batch`, `-A acct1` and
`-t 60`; `mem_mb_per_cpu` is preferred over `mem_mb` whenever it is
present; and when neither memory key is present the command is still
built, with only the warning flag set. -/
theorem c6_submission_command (r : Resources) :
    buildCall rScenarioThreads "snakejob.sh" "job_a" false "/wd" "/s.sh"
      = .built ["sbatch", "-A", "acct1", "-p", "batch", "-t", "60",
                "-J", "snakejob.sh", "-o", ".snakemake/slurm_logs/%x_%j.log",
                "--export=ALL", "--mem-per-cpu=2000", "-n", "1", "-c", "4",
                "--chdir=/wd", "/s.sh"] false ∧
    (truthy (r.get "mem_mb_per_cpu") = true →
      memTokens r = (["--mem-per-cpu=" ++ (r.get "mem_mb_per_cpu").getD ""], false)) ∧
    (truthy (r.get "mem_mb_per_cpu") = false → truthy (r.get "mem_mb") = false →
      memTokens r = ([], true)) ∧
    buildCall rNoMem "snakejob.sh" "job_a" false "/wd" "/s.sh"
      = .built ["sbatch", "-A", "acct1", "-p", "batch", "-t", "60",
                "-J", "snakejob.sh", "-o", ".snakemake/slurm_logs/%x_%j.log",
                "--export=ALL", "-n", "1", "-c", "4",
                "--chdir=/wd", "/s.sh"] true := by
  refine ⟨by decide, ?_, ?_, by decide⟩
  · intro h
    simp [memTokens, h]
  · intro h1 h2
    simp [memTokens, h1, h2]

/-- Witness for C6 (amended): the memory-preference branches evaluated
at concrete resource sets. -/
theorem c6_submission_command_witness :
    (truthy (rScenarioThreads.get "mem_mb_per_cpu") = true ∧
      memTokens rScenarioThreads
        = (["--mem-per-cpu=" ++ (rScenarioThreads.get "mem_mb_per_cpu").getD ""], false)) ∧
    (truthy (rNoMem.get "mem_mb_per_cpu") = false ∧
      truthy (rNoMem.get "mem_mb") = false ∧
      memTokens rNoMem = ([], true)) :=
  ⟨⟨by decide, (c6_submission_command rScenarioThreads).2.1 (by decide)⟩,
   ⟨by decide, by decide,
    (c6_submission_command rNoMem).2.2.1 (by decide) (by decide)⟩⟩

/-- C9 counterexample: on the execution where the very first `sacct`
attempt produces unparseable output (no `|` separator) — and the
`scontrol` fallback would even have answered — `job_status` does not
fail with the claimed `NameError` at the `if not res:` guard: it dies
earlier, with the uncaught `TypeError` of line 275 (the bytes output
split with a str separator), which is a different unhandled exception
raised before the guard is ever reached. -/
theorem c9_counterexample :
    job_status envSacctGarbage "123" = .typeError ∧
    JobStatusResult.typeError ≠ JobStatusResult.nameError "res" := by
  decide

/-- C9 (amended): the fallback `scontrol` query is guarded by a check of
the variable `res`, which the first loop iteration can never have
assigned; on any execution where the very first `sacct` attempt raises
a process error, the guard reads the unassigned variable and
`job_status` dies with an uncaught `NameError`, and on any execution
where the first `sacct` attempt instead produces output — parseable or
not — `job_status` dies even earlier with the uncaught `TypeError` of
line 275; in both cases the fallback mechanism is never reached, the
result being independent of the `scontrol` behaviour. -/
theorem c9_first_sacct_failure_fatal (env env2 : StatusEnv) (jobid : String)
    (h2 : env2.sacct = env.sacct) :
    (env.sacct 0 = .procError →
      job_status env jobid = .nameError "res" ∧
      job_status env2 jobid = .nameError "res") ∧
    (∀ s, env.sacct 0 = .output s →
      job_status env jobid = .typeError ∧
      job_status env2 jobid = .typeError) := by
  have hrange : List.range STATUS_ATTEMPS = 0 :: [1, 2, 3, 4, 5, 6, 7, 8, 9] := by
    decide
  have h2' : ∀ q, env.sacct 0 = q → env2.sacct 0 = q := by
    intro q hq
    rw [h2]
    exact hq
  constructor
  · intro h
    constructor
    · simp [job_status, hrange, job_status_loop, h]
    · simp [job_status, hrange, job_status_loop, h2' _ h]
  · intro s h
    constructor
    · simp [job_status, hrange, job_status_loop, h]
    · simp [job_status, hrange, job_status_loop, h2' _ h]

/-- Witness for C9 (amended): a scheduler whose first `sacct` call
fails with a process error dies with `NameError` on `res`, and one
whose first `sacct` call produces output dies with `TypeError`; in
both cases swapping the `scontrol` behaviour for a failing one changes
nothing. -/
theorem c9_first_sacct_failure_fatal_witness :
    (job_status envScontrolWouldAnswer "123" = .nameError "res" ∧
      job_status ⟨envScontrolWouldAnswer.sacct, fun _ => .procError⟩ "123"
        = .nameError "res") ∧
    (job_status envSacctAnswers "123" = .typeError ∧
      job_status ⟨envSacctAnswers.sacct, fun _ => .procError⟩ "123" = .typeError) :=
  ⟨(c9_first_sacct_failure_fatal envScontrolWouldAnswer
      ⟨envScontrolWouldAnswer.sacct, fun _ => .procError⟩ "123" rfl).1 rfl,
   (c9_first_sacct_failure_fatal envSacctAnswers
      ⟨envSacctAnswers.sacct, fun _ => .procError⟩ "123" rfl).2 "123|COMPLETED" rfl⟩

/-- C3 (code bug): `job_status` never makes a second query attempt,
never reaches the `scontrol` fallback and never raises the exhaustion
`WorkflowError` of line 296.  When every query fails with a process
error (the exhaustion scenario the claim describes), the first failed
`sacct` attempt kills `job_status` with an uncaught `NameError` on
`res` instead of the claimed fatal `WorkflowError` after 10 alternating
attempts; the same happens when the `scontrol` fallback would have
answered (last conjunct: its `JobState=COMPLETED` output really would
have matched, the `scontrol` path being decoded to text by line 288);
and even a scheduler whose `sacct` answers flawlessly on every call
kills `job_status` with the uncaught `TypeError` of line 275, so no
attempt can ever produce a usable answer and line 296 is unreachable
(line 295 also misspells `STATUS_ATTEMPS`, so the exhaustion check
itself could only raise `NameError`). -/
theorem c3_no_retry_no_fallback :
    job_status envAllProcError "123" = .nameError "res" ∧
    job_status envScontrolWouldAnswer "123" = .nameError "res" ∧
    job_status envSacctAnswers "123" = .typeError ∧
    findJobState "JobId=123 JobState=COMPLETED Reason=None" = some "COMPLETED" := by
  decide

/-- C5 counterexample: the interleaving in which the submitter loads the
`self.active_jobs` reference before the sweep's snapshot-and-clear and
appends after the poll loop has finished is program-order valid, and in
it the submitted job is lost: the final active set is empty, the job
was never polled (so no callback can ever fire for it), and the entry
sits in the discarded snapshot object (heap object 0).  The claim's
premise that the submission path appends under the sweep's lock is
false in the source — line 260 appends with no lock. -/
theorem c5_counterexample :
    [RaceAction.readRef, .snapClear, .pollLoop, .append, .merge]
      ∈ interleavings pollerProg subProg ∧
    finalActive [RaceAction.readRef, .snapClear, .pollLoop, .append, .merge] = [] ∧
    (raceExec [RaceAction.readRef, .snapClear, .pollLoop, .append, .merge]).polled = [] ∧
    heapGet (raceExec [RaceAction.readRef, .snapClear, .pollLoop, .append, .merge]).heap 0
      = [newJobId] := by
  decide

/-- C5 (amended): every sweep snapshots and clears the active set under
the lock, polls the snapshot without holding the lock, and merges
still-running entries back under the lock, and within one sweep no
entry is polled twice; but the submission path appends WITHOUT the
lock, so only when the submitter's reference load happens after the
sweep's snapshot-and-clear is the job guaranteed to survive in the
active set — a job submitted mid-sweep whose append lands on the
discarded snapshot can be lost. -/
theorem c5_sweep_lock_discipline (tr : List RaceAction)
    (h : tr ∈ interleavings pollerProg subProg)
    (h2 : tr.indexOf RaceAction.snapClear < tr.indexOf RaceAction.readRef) :
    newJobId ∈ finalActive tr ∧
    (raceExec tr).polled.count newJobId ≤ 1 ∧
    holdsLock .snapClear = true ∧ holdsLock .merge = true ∧
    holdsLock .pollLoop = false ∧ holdsLock .readRef = false ∧
    holdsLock .append = false := by
  have H : ∀ t ∈ interleavings pollerProg subProg,
      (raceExec t).polled.count newJobId ≤ 1 ∧
      (t.indexOf RaceAction.snapClear < t.indexOf RaceAction.readRef →
        newJobId ∈ finalActive t) := by
    decide
  exact ⟨(H tr h).2 h2, (H tr h).1, rfl, rfl, rfl, rfl, rfl⟩

/-- Witness for C5 (amended): the interleaving where the whole
submission happens after the snapshot-and-clear keeps the job in the
active set. -/
theorem c5_sweep_lock_discipline_witness :
    newJobId ∈ finalActive [RaceAction.snapClear, .readRef, .append, .pollLoop, .merge] ∧
    (raceExec [RaceAction.snapClear, .readRef, .append, .pollLoop, .merge]).polled.count
      newJobId ≤ 1 ∧
    holdsLock .snapClear = true ∧ holdsLock .merge = true ∧
    holdsLock .pollLoop = false ∧ holdsLock .readRef = false ∧
    holdsLock .append = false :=
  c5_sweep_lock_discipline [RaceAction.snapClear, .readRef, .append, .pollLoop, .merge]
    (by decide) (by decide)

end SlurmSubmit
